import Mathlib

/-!
Verification of the SecurePaste Python API client
(src/examples/python_example.py) against its specification.

The client is shallowly embedded: JSON values are an inductive type,
Python dicts are ordered association lists with insert-or-overwrite,
and one HTTP exchange is modelled by an `HttpOutcome` — either a
transport-level failure or a response carrying a status code, the raw
body text, and the result of attempting to JSON-decode that text.
Each client operation builds a `Request` and interprets the outcome the
network returns for it, exactly as the Python source does; the `requests`
library semantics relevant here (`raise_for_status` raising exactly for
statuses 400–599, `Response.__bool__` being `status < 400`, JSON-decode
errors being `RequestException`s whose `response` attribute is `None`)
are reflected faithfully.
-/

/-- JSON values as produced by the json library decode: objects are
ordered key-value lists (a decode never yields duplicate keys). -/
inductive Json where
  | null
  | bool (b : Bool)
  | num (n : Int)
  | str (s : String)
  | arr (elems : List Json)
  | obj (fields : List (String × Json))

/-- Python truthiness of a decoded JSON value: `None`, `False`, `0`,
`""`, `[]`, and the empty dict are falsy; everything else is truthy. -/
def Json.truthy : Json → Bool
  | .null => false
  | .bool b => b
  | .num n => !(n == 0)
  | .str s => !(s == "")
  | .arr xs => !xs.isEmpty
  | .obj fs => !fs.isEmpty

/-- Whether a JSON value is an object (a Python dict). -/
def Json.isObj : Json → Bool
  | .obj _ => true
  | _ => false

/-- Python dict lookup `d[k]` on an ordered association list (keys are
unique, so the first binding is the binding). -/
def dict_get (d : List (String × Json)) (k : String) : Option Json :=
  match d with
  | [] => none
  | p :: t => if p.1 = k then some p.2 else dict_get t k

/-- Python dict assignment `d[k] = v` on an ordered association list:
overwrite in place if the key is present, append otherwise. -/
def dict_set (d : List (String × Json)) (k : String) (v : Json) :
    List (String × Json) :=
  if d.any (fun p => decide (p.1 = k)) then
    d.map (fun p => if p.1 = k then (k, v) else p)
  else
    d ++ [(k, v)]

/-- Python dict merge `\x7b**d, **kw\x7d`: the entries of `kw` are applied
left to right on top of `d`, later bindings overwriting earlier ones. -/
def dict_merge (d : List (String × Json)) (kw : List (String × Json)) :
    List (String × Json) :=
  kw.foldl (fun acc p => dict_set acc p.1 p.2) d

/-- An HTTP response as the client code sees it: the status code, the raw
body text, and the result of attempting to decode the body as JSON
(`none` when the body is malformed JSON). -/
structure HttpResponse where
  status : Nat
  text : String
  json : Option Json

/-- The outcome of one HTTP exchange: a transport-level failure
(connection refused, timeout, ...) or a response. -/
inductive HttpOutcome where
  | transportError (msg : String)
  | response (r : HttpResponse)

/-- `requests.Response.raise_for_status` raises `HTTPError` exactly for
status codes 400–599. -/
def raise_for_status_raises (status : Nat) : Bool :=
  decide (400 ≤ status ∧ status < 600)

/-- `requests.Response.__bool__` is `self.ok`, i.e. `status < 400`. -/
def response_ok (r : HttpResponse) : Bool :=
  decide (r.status < 400)

/-- The shared body of every JSON-returning operation:
`try: response = ...; response.raise_for_status(); return response.json()
except requests.RequestException: ...; return None`.
A transport failure, an HTTPError from `raise_for_status`, or a
JSON-decode failure (a `RequestException` in `requests`) yields `none`;
otherwise the decoded body is returned. -/
def json_call_result : HttpOutcome → Option Json
  | .transportError _ => none
  | .response r => if raise_for_status_raises r.status then none else r.json

/-- The body of `delete_paste`: `True` unless the exchange failed in
transport or `raise_for_status` raised. The body is never decoded. -/
def delete_call_result : HttpOutcome → Bool
  | .transportError _ => false
  | .response r => !raise_for_status_raises r.status

/-- The failure condition the client's `except` blocks actually catch:
a transport failure, a 4xx/5xx status, or a JSON-decode failure. -/
def op_failure : HttpOutcome → Bool
  | .transportError _ => true
  | .response r => raise_for_status_raises r.status || r.json.isNone

/-- The `response` attribute of the caught `RequestException`: the
response object for an `HTTPError` raised by `raise_for_status`; `None`
for transport failures and for JSON-decode errors (whose constructor
does not receive the response). -/
def exc_response : HttpOutcome → Option HttpResponse
  | .transportError _ => none
  | .response r => if raise_for_status_raises r.status then some r else none

/-- Rendering of the caught exception interpolated into the first
printed line. -/
def exc_str : HttpOutcome → String
  | .transportError m => m
  | .response r => toString r.status ++ " Error"

/-- The error report a failing JSON-returning operation prints: the
first line always, and the `Response: ...` line only when
`hasattr(e, 'response') and e.response` holds — the truthiness of a
`Response` being `response_ok`. -/
structure ErrorReport where
  firstLine : String
  bodyLine : Option String

/-- The report printed by the `except` block of `create_paste`,
`get_paste` and `update_paste` on a failing outcome. -/
def op_error_report (context : String) (o : HttpOutcome) : ErrorReport :=
  ⟨context ++ exc_str o,
   match exc_response o with
   | some r => if response_ok r then some ("Response: " ++ r.text) else none
   | none => none⟩

/-- An HTTP request as the client builds it: method, URL, query
parameters, and the optional JSON body. -/
structure Request where
  method : String
  url : String
  params : List (String × String)
  jsonBody : Option Json

/-- Python `str.rstrip("/")`: drop every trailing slash. -/
def rstrip_slashes (s : String) : String :=
  String.mk ((s.data.reverse.dropWhile (fun ch => ch == '/')).reverse)

/-- The client: configured by its base URL alone (the session headers
are constant and carry no verification content). -/
structure SecurePasteClient where
  base_url : String

/-- `self.api_base = f"..."` with the trailing slashes of the base URL
stripped, as in `__init__`. -/
def SecurePasteClient.api_base (c : SecurePasteClient) : String :=
  rstrip_slashes c.base_url ++ "/api/pastes"

/-- The JSON body of `create_paste`:
`data = \x7b'title': title, 'content': content, **kwargs\x7d`. -/
def create_paste_data (title content : String)
    (kwargs : List (String × Json)) : List (String × Json) :=
  dict_merge [("title", Json.str title), ("content", Json.str content)] kwargs

/-- The request `create_paste` issues. -/
def SecurePasteClient.create_paste_request (c : SecurePasteClient)
    (title content : String) (kwargs : List (String × Json)) : Request :=
  ⟨"POST", c.api_base, [], some (Json.obj (create_paste_data title content kwargs))⟩

/-- `create_paste`, exchanging its request over `net`. -/
def SecurePasteClient.create_paste (c : SecurePasteClient)
    (title content : String) (kwargs : List (String × Json))
    (net : Request → HttpOutcome) : Option Json :=
  json_call_result (net (c.create_paste_request title content kwargs))

/-- The request `get_paste` issues: `params = \x7b\x7d` and then
`if password: params['password'] = password` — the parameter is attached
only for a truthy (present and non-empty) password. -/
def SecurePasteClient.get_paste_request (c : SecurePasteClient)
    (paste_id : String) (password : Option String) : Request :=
  ⟨"GET", c.api_base ++ "/" ++ paste_id,
   match password with
   | some p => if p == "" then [] else [("password", p)]
   | none => [],
   none⟩

/-- `get_paste`, exchanging its request over `net`. -/
def SecurePasteClient.get_paste (c : SecurePasteClient) (paste_id : String)
    (password : Option String) (net : Request → HttpOutcome) : Option Json :=
  json_call_result (net (c.get_paste_request paste_id password))

/-- The request `update_paste` issues: the JSON body is exactly the
keyword arguments. -/
def SecurePasteClient.update_paste_request (c : SecurePasteClient)
    (paste_id : String) (kwargs : List (String × Json)) : Request :=
  ⟨"PUT", c.api_base ++ "/" ++ paste_id, [], some (Json.obj kwargs)⟩

/-- `update_paste`, exchanging its request over `net`. -/
def SecurePasteClient.update_paste (c : SecurePasteClient) (paste_id : String)
    (kwargs : List (String × Json)) (net : Request → HttpOutcome) : Option Json :=
  json_call_result (net (c.update_paste_request paste_id kwargs))

/-- The request `delete_paste` issues. -/
def SecurePasteClient.delete_paste_request (c : SecurePasteClient)
    (paste_id : String) : Request :=
  ⟨"DELETE", c.api_base ++ "/" ++ paste_id, [], none⟩

/-- `delete_paste`: a boolean, never decoding the body. -/
def SecurePasteClient.delete_paste (c : SecurePasteClient) (paste_id : String)
    (net : Request → HttpOutcome) : Bool :=
  delete_call_result (net (c.delete_paste_request paste_id))

/-- The request `get_public_pastes` issues. -/
def SecurePasteClient.get_public_pastes_request (c : SecurePasteClient)
    (page size : Int) : Request :=
  ⟨"GET", c.api_base ++ "/public",
   [("page", toString page), ("size", toString size)], none⟩

/-- `get_public_pastes`, exchanging its request over `net`. -/
def SecurePasteClient.get_public_pastes (c : SecurePasteClient)
    (page size : Int) (net : Request → HttpOutcome) : Option Json :=
  json_call_result (net (c.get_public_pastes_request page size))

/-- The request `search_pastes` issues. -/
def SecurePasteClient.search_pastes_request (c : SecurePasteClient)
    (query : String) (page size : Int) : Request :=
  ⟨"GET", c.api_base ++ "/search",
   [("q", query), ("page", toString page), ("size", toString size)], none⟩

/-- `search_pastes`, exchanging its request over `net`. -/
def SecurePasteClient.search_pastes (c : SecurePasteClient) (query : String)
    (page size : Int) (net : Request → HttpOutcome) : Option Json :=
  json_call_result (net (c.search_pastes_request query page size))

/-- The request `get_pastes_by_language` issues. -/
def SecurePasteClient.get_pastes_by_language_request (c : SecurePasteClient)
    (language : String) (page size : Int) : Request :=
  ⟨"GET", c.api_base ++ "/language/" ++ language,
   [("page", toString page), ("size", toString size)], none⟩

/-- `get_pastes_by_language`, exchanging its request over `net`. -/
def SecurePasteClient.get_pastes_by_language (c : SecurePasteClient)
    (language : String) (page size : Int) (net : Request → HttpOutcome) :
    Option Json :=
  json_call_result (net (c.get_pastes_by_language_request language page size))

/-- The request `get_statistics` issues. -/
def SecurePasteClient.get_statistics_request (c : SecurePasteClient) : Request :=
  ⟨"GET", c.api_base ++ "/stats", [], none⟩

/-- `get_statistics`, exchanging its request over `net`. -/
def SecurePasteClient.get_statistics (c : SecurePasteClient)
    (net : Request → HttpOutcome) : Option Json :=
  json_call_result (net (c.get_statistics_request))

/-- Python `value == 'UP'` applied to the result of `.get('status')`:
true only for the JSON string `"UP"`. -/
def status_is_up : Option Json → Bool
  | some (Json.str s) => s == "UP"
  | _ => false

/-- A Python computation that either completes with a value or raises an
exception the caller does not catch. -/
inductive PyResult (α : Type) where
  | ok (a : α)
  | raised (msg : String)
deriving DecidableEq

/-- `health_check`: `except requests.RequestException: return False`
suppresses transport, HTTP-status and JSON-decode failures, but
`response.json().get('status')` raises `AttributeError` — not a
`RequestException` — whenever the decoded body is not a dict. -/
def SecurePasteClient.health_check (c : SecurePasteClient)
    (net : Request → HttpOutcome) : PyResult Bool :=
  match net ⟨"GET", c.api_base ++ "/health", [], none⟩ with
  | .transportError _ => .ok false
  | .response r =>
    if raise_for_status_raises r.status then .ok false
    else
      match r.json with
      | none => .ok false
      | some (Json.obj fs) => .ok (status_is_up (dict_get fs "status"))
      | some _ => .raised "AttributeError"

/-- Python subscript `j[key]` with a string key: a present dict key
yields its value, a missing one raises `KeyError`, and any non-dict
value raises `TypeError`. -/
def py_subscript (j : Json) (key : String) : Except String Json :=
  match j with
  | Json.obj fs =>
    match dict_get fs key with
    | some v => Except.ok v
    | none => Except.error "KeyError"
  | Json.str _ => Except.error "TypeError: string indices must be integers"
  | _ => Except.error "TypeError: object is not subscriptable"

/-- Python `j.get(key)`: `none` for a missing key, but an
`AttributeError` when the value is not a dict at all. -/
def py_get (j : Json) (key : String) : Except String (Option Json) :=
  match j with
  | Json.obj fs => Except.ok (dict_get fs key)
  | _ => Except.error "AttributeError"

/-- Python `len(j)`: defined for strings, lists and dicts. -/
def py_len : Json → Except String Nat
  | Json.str s => Except.ok s.length
  | Json.arr xs => Except.ok xs.length
  | Json.obj fs => Except.ok fs.length
  | _ => Except.error "TypeError: object has no len"

/-- Python slice `j[:n]`: defined for strings and lists; a dict raises
(`slice` is unhashable) and so does every scalar. -/
def py_slice_to (j : Json) (n : Nat) : Except String Json :=
  match j with
  | Json.str s => Except.ok (Json.str (String.mk (s.data.take n)))
  | Json.arr xs => Except.ok (Json.arr (xs.take n))
  | _ => Except.error "TypeError: unhashable type slice"

/-- Python iteration `for x in j`: the elements of a list, the
one-character strings of a string, the keys of a dict. -/
def py_iter : Json → Except String (List Json)
  | Json.arr xs => Except.ok xs
  | Json.str s => Except.ok (s.data.map (fun ch => Json.str (String.mk [ch])))
  | Json.obj fs => Except.ok (fs.map (fun p => Json.str p.1))
  | _ => Except.error "TypeError: object is not iterable"

/-- Python subscript `j[i]` with an integer index. A dict raises
`KeyError` (decoded JSON objects have no integer keys). -/
def py_index (j : Json) (i : Nat) : Except String Json :=
  match j with
  | Json.arr xs =>
    match xs.get? i with
    | some v => Except.ok v
    | none => Except.error "IndexError"
  | Json.str s =>
    match s.data.get? i with
    | some ch => Except.ok (Json.str (String.mk [ch]))
    | none => Except.error "IndexError"
  | Json.obj _ => Except.error "KeyError"
  | _ => Except.error "TypeError: object is not subscriptable"

/-- Python `str(j)` for the scalar values the driver interpolates into
URLs (paste ids). The driver's network oracle is indexed by call
position, so this rendering feeds only the URL text and influences no
outcome. -/
def py_str_scalar : Json → String
  | Json.null => "None"
  | Json.bool true => "True"
  | Json.bool false => "False"
  | Json.num n => toString n
  | Json.str s => s
  | Json.arr _ => "<list>"
  | Json.obj _ => "<dict>"

/-- `print_paste_info`: returns immediately on a falsy argument, then
performs the source's sequence of subscripts and `.get`s, any of which
can raise. -/
def print_paste_info (paste : Json) : Except String Unit :=
  if !paste.truthy then Except.ok () else do
    let _ ← py_subscript paste "id"
    let _ ← py_subscript paste "title"
    let _ ← py_get paste "language"
    let _ ← py_get paste "authorName"
    let _ ← py_subscript paste "visibility"
    let _ ← py_subscript paste "viewCount"
    let _ ← py_subscript paste "createdAt"
    let _ ← py_get paste "expiresAt"
    let _ ← py_get paste "passwordProtected"
    let content ← py_subscript paste "content"
    let _ ← py_slice_to content 100
    Except.ok ()

/-- How one run of the driver `main` can end: the deliberate
`sys.exit(1)` after a failed health check, normal completion (also via
an early `return`), or abnormal termination by an uncaught exception. -/
inductive DriverExit where
  | exitFailure
  | completed
  | raised (msg : String)
deriving DecidableEq

/-- The client `main` constructs: `SecurePasteClient()` with the default
base URL. -/
def defaultClient : SecurePasteClient :=
  ⟨"http://localhost:8080"⟩

/-- Steps 2–13 of `main`, after the health check succeeded. The
environment supplies the outcome of the i-th HTTP exchange as
`oracle i` (the health check consumed index 0). An `Except.error` is an
uncaught exception escaping `main`; `return ()` models the early
`return` statements after a failed create. -/
def mainAfterHealth (oracle : Nat → HttpOutcome) : Except String Unit := do
  let client := defaultClient
  -- 2. create a simple paste
  let simple_paste := client.create_paste "Hello World Example"
    "print Hello, World from Python"
    [("language", Json.str "python"), ("authorName", Json.str "API Example"),
     ("visibility", Json.str "PUBLIC")] (fun _ => oracle 1)
  let some spj := simple_paste | return ()
  if !spj.truthy then return ()
  print_paste_info spj
  let spId ← py_subscript spj "id"
  -- 3. create a password-protected paste
  let protected_paste := client.create_paste "Secret Code"
    "const secret = this is a secret message"
    [("language", Json.str "javascript"), ("visibility", Json.str "UNLISTED"),
     ("password", Json.str "secret123")] (fun _ => oracle 2)
  let some ppj := protected_paste | return ()
  if !ppj.truthy then return ()
  print_paste_info ppj
  let ppId ← py_subscript ppj "id"
  -- 4. create a paste with expiration (no early return on failure)
  let expiring_paste := client.create_paste "Temporary Code Snippet"
    "console.log Temporary message"
    [("language", Json.str "javascript"), ("expirationMinutes", Json.num 60),
     ("visibility", Json.str "PUBLIC")] (fun _ => oracle 3)
  match expiring_paste with
  | some epj => if epj.truthy then print_paste_info epj else pure ()
  | none => pure ()
  -- 5. retrieve the simple paste
  let retrieved := client.get_paste (py_str_scalar spId) none (fun _ => oracle 4)
  match retrieved with
  | some rj =>
    if rj.truthy then do
      let _ ← py_subscript rj "viewCount"
      pure ()
    else pure ()
  | none => pure ()
  -- 6. protected paste without password (result only tested for falsity)
  let _failed_retrieval := client.get_paste (py_str_scalar ppId) none (fun _ => oracle 5)
  -- 7. protected paste with password (result only tested for truthiness)
  let _protected_retrieved := client.get_paste (py_str_scalar ppId)
    (some "secret123") (fun _ => oracle 6)
  -- 8. update the simple paste
  let updated := client.update_paste (py_str_scalar spId)
    [("title", Json.str "Updated Hello World Example"),
     ("content", Json.str "print Hello, Updated World from Python")]
    (fun _ => oracle 7)
  match updated with
  | some uj =>
    if uj.truthy then do
      let _ ← py_subscript uj "title"
      pure ()
    else pure ()
  | none => pure ()
  -- 9. search
  let search_results := client.search_pastes "Python" 0 5 (fun _ => oracle 8)
  match search_results with
  | some srj =>
    if srj.truthy then do
      let contents ← py_subscript srj "content"
      if contents.truthy then do
        let _ ← py_len contents
        let sliced ← py_slice_to contents 2
        let items ← py_iter sliced
        items.forM print_paste_info
      else pure ()
    else pure ()
  | none => pure ()
  -- 10. pastes by language
  match client.get_pastes_by_language "javascript" 0 3 (fun _ => oracle 9) with
  | some jj =>
    if jj.truthy then do
      let contents ← py_subscript jj "content"
      if contents.truthy then do
        let _ ← py_len contents
        pure ()
      else pure ()
    else pure ()
  | none => pure ()
  -- 11. public pastes
  match client.get_public_pastes 0 5 (fun _ => oracle 10) with
  | some pj =>
    if pj.truthy then do
      let contents ← py_subscript pj "content"
      if contents.truthy then do
        let _ ← py_len contents
        let _ ← py_subscript pj "totalElements"
        pure ()
      else pure ()
    else pure ()
  | none => pure ()
  -- 12. statistics
  match client.get_statistics (fun _ => oracle 11) with
  | some st =>
    if st.truthy then do
      let _ ← py_get st "totalPastes"
      let _ ← py_get st "publicPastes"
      let _ ← py_get st "totalViews"
      let plOpt ← py_get st "popularLanguages"
      let popular_langs := plOpt.getD (Json.arr [])
      if popular_langs.truthy then do
        let sliced ← py_slice_to popular_langs 5
        let items ← py_iter sliced
        items.forM (fun lang_data => do
          let _ ← py_index lang_data 0
          let _ ← py_index lang_data 1
          pure ())
      else pure ()
    else pure ()
  | none => pure ()
  -- 13. clean up
  let _ := client.delete_paste (py_str_scalar spId) (fun _ => oracle 12)
  let _ := client.delete_paste (py_str_scalar ppId) (fun _ => oracle 13)
  pure ()

/-- The driver `main`: health check first — `sys.exit(1)` when it
reports the service unavailable, an uncaught exception if it raises —
then the remaining steps, whose uncaught exceptions also terminate the
process abnormally. -/
def main_driver (oracle : Nat → HttpOutcome) : DriverExit :=
  match defaultClient.health_check (fun _ => oracle 0) with
  | .raised m => .raised m
  | .ok false => .exitFailure
  | .ok true =>
    match mainAfterHealth oracle with
    | .ok _ => .completed
    | .error m => .raised m

/-! ### Association-list lemmas for the dict model -/

theorem dict_get_append (l1 l2 : List (String × Json)) (k : String) :
    dict_get (l1 ++ l2) k = (dict_get l1 k).or (dict_get l2 k) := by
  induction l1 with
  | nil => simp [dict_get]
  | cons p t ih =>
    by_cases hp : p.1 = k <;> simp [dict_get, hp, ih]

theorem dict_get_eq_none_of_not_any (d : List (String × Json)) (k : String)
    (h : d.any (fun p => decide (p.1 = k)) = false) :
    dict_get d k = none := by
  induction d with
  | nil => rfl
  | cons p t ih =>
    simp only [List.any_cons, Bool.or_eq_false_iff, decide_eq_false_iff_not] at h
    simp [dict_get, h.1, ih h.2]

theorem dict_get_map_overwrite (d : List (String × Json)) (k : String) (v : Json)
    (h : d.any (fun p => decide (p.1 = k)) = true) :
    dict_get (d.map (fun p => if p.1 = k then (k, v) else p)) k = some v := by
  induction d with
  | nil => simp at h
  | cons p t ih =>
    by_cases hp : p.1 = k
    · simp [dict_get, hp]
    · simp only [List.any_cons, Bool.or_eq_true, decide_eq_true_eq] at h
      have ht : t.any (fun p => decide (p.1 = k)) = true := by
        rcases h with h | h
        · exact absurd h hp
        · exact h
      simp [dict_get, hp, ih ht]

theorem dict_get_map_ne (d : List (String × Json)) (k : String) (v : Json)
    (k' : String) (h : k' ≠ k) :
    dict_get (d.map (fun p => if p.1 = k then (k, v) else p)) k' = dict_get d k' := by
  induction d with
  | nil => rfl
  | cons p t ih =>
    by_cases hp : p.1 = k
    · have h1 : ¬ k = k' := fun hh => h hh.symm
      have h2 : ¬ p.1 = k' := by rw [hp]; exact h1
      simp [dict_get, hp, h1, h2, ih]
    · by_cases hq : p.1 = k'
      · simp [dict_get, hp, hq, h, ih]
      · simp [dict_get, hp, hq, ih]

theorem dict_set_get_self (d : List (String × Json)) (k : String) (v : Json) :
    dict_get (dict_set d k v) k = some v := by
  unfold dict_set
  by_cases h : d.any (fun p => decide (p.1 = k)) = true
  · simp [h, dict_get_map_overwrite d k v h]
  · have h0 : d.any (fun p => decide (p.1 = k)) = false := by
      cases hx : d.any (fun p => decide (p.1 = k))
      · rfl
      · exact absurd hx h
    simp [h0, dict_get_append, dict_get_eq_none_of_not_any d k h0, dict_get, Option.or]

theorem dict_set_get_ne (d : List (String × Json)) (k : String) (v : Json)
    (k' : String) (h : k' ≠ k) :
    dict_get (dict_set d k v) k' = dict_get d k' := by
  unfold dict_set
  split
  · exact dict_get_map_ne d k v k' h
  · rw [dict_get_append]
    have h1 : ¬ k = k' := fun hh => h hh.symm
    simp [dict_get, h1]

theorem dict_merge_get (kw : List (String × Json)) (d : List (String × Json))
    (k : String) :
    dict_get (dict_merge d kw) k = (dict_get kw.reverse k).or (dict_get d k) := by
  induction kw generalizing d with
  | nil => simp [dict_merge, dict_get, Option.or]
  | cons p t ih =>
    have hstep : dict_merge d (p :: t) = dict_merge (dict_set d p.1 p.2) t := rfl
    rw [hstep, ih, List.reverse_cons, dict_get_append]
    by_cases hk : p.1 = k
    · subst hk
      rw [dict_set_get_self]
      simp only [dict_get, if_pos rfl]
      cases dict_get t.reverse p.1 <;> simp [Option.or]
    · rw [dict_set_get_ne d p.1 p.2 k (fun hh => hk hh.symm)]
      simp only [dict_get, if_neg hk]
      cases dict_get t.reverse k <;> cases dict_get d k <;> simp [Option.or]

theorem dict_get_of_mem_of_nodup (d : List (String × Json)) (k : String) (v : Json)
    (hnd : (d.map Prod.fst).Nodup) (hm : (k, v) ∈ d) :
    dict_get d k = some v := by
  induction d with
  | nil => cases hm
  | cons p t ih =>
    simp only [List.map_cons, List.nodup_cons] at hnd
    rcases List.mem_cons.mp hm with h | h
    · rw [← h]
      simp [dict_get]
    · have hk : k ∈ t.map Prod.fst := by
        have := List.mem_map_of_mem Prod.fst h
        simpa using this
      have hp : ¬ p.1 = k := fun hh => hnd.1 (hh ▸ hk)
      simp [dict_get, hp, ih hnd.2 h]

/-! ### Shared helper lemmas about the call-result interpreters -/

/-- A transport failure, a 4xx/5xx status, or a JSON-decode failure
makes every JSON-returning operation produce `none`. -/
theorem json_call_result_of_failure (o : HttpOutcome) (h : op_failure o = true) :
    json_call_result o = none := by
  cases o with
  | transportError m => rfl
  | response r =>
    simp only [op_failure, Bool.or_eq_true] at h
    rcases h with h | h
    · simp [json_call_result, h]
    · have hj : r.json = none := Option.isNone_iff_eq_none.mp h
      simp [json_call_result, hj]

/-- The delete-specific failure condition: a transport failure or a
4xx/5xx status (the body is never decoded, so it cannot fail). -/
def delete_op_failure : HttpOutcome → Bool
  | .transportError _ => true
  | .response r => raise_for_status_raises r.status

theorem delete_call_result_of_failure (o : HttpOutcome)
    (h : delete_op_failure o = true) : delete_call_result o = false := by
  cases o with
  | transportError m => rfl
  | response r => simp [delete_call_result, delete_op_failure.eq_def] at h ⊢; simp [h]

/-- A 2xx status is never flagged by `raise_for_status`. -/
theorem raise_for_status_of_2xx (s : Nat) (h1 : 200 ≤ s) (h2 : s < 300) :
    raise_for_status_raises s = false := by
  simp [raise_for_status_raises]
  omega

/-- On a 2xx response with a decodable body, every JSON-returning
operation returns the decoded body. -/
theorem json_call_result_2xx (s : Nat) (b : String) (j : Json)
    (h1 : 200 ≤ s) (h2 : s < 300) :
    json_call_result (.response ⟨s, b, some j⟩) = some j := by
  simp [json_call_result, raise_for_status_of_2xx s h1 h2]

/-- `value == 'UP'` holds exactly for the JSON string `"UP"`. -/
theorem status_is_up_iff (v : Option Json) :
    status_is_up v = true ↔ v = some (Json.str "UP") := by
  cases v with
  | none => simp [status_is_up]
  | some j => cases j <;> simp [status_is_up]

/-- Looking a key up in the reversed list under unique keys. -/
theorem dict_get_reverse_of_mem (d : List (String × Json)) (k : String) (v : Json)
    (hnd : (d.map Prod.fst).Nodup) (hm : (k, v) ∈ d) :
    dict_get d.reverse k = some v := by
  apply dict_get_of_mem_of_nodup
  · rw [List.map_reverse]
    exact List.nodup_reverse.mpr hnd
  · exact List.mem_reverse.mpr hm

/-! ### Claim C1 -/

/-- C1 counterexample. The claim says a non-2xx status always yields the
failure value, and that malformed JSON makes `deletePaste` return false.
Both fail: `raise_for_status` flags only 400–599, so a 302 response with
a decodable body is returned as a result; and `delete_paste` never looks
at the body, so a 2xx response with malformed JSON yields `true`. -/
theorem c1_counterexample :
    defaultClient.get_paste "x" none
      (fun _ => .response ⟨302, "", some (Json.obj [])⟩) = some (Json.obj []) ∧
    defaultClient.delete_paste "x"
      (fun _ => .response ⟨200, "not json", none⟩) = true :=
  ⟨rfl, rfl⟩

/-- C1 (amended): for every JSON-returning client operation, whenever
the HTTP exchange yields a transport-level failure, a 4xx/5xx status, or
malformed JSON, the operation returns the explicit no-result value; and
`delete_paste` returns `false` whenever the exchange yields a
transport-level failure or a 4xx/5xx status (its body is never decoded).
No operation raises: the embedding of each `except` block is total. -/
theorem c1_amended_failure_yields_no_result (c : SecurePasteClient)
    (title content paste_id language query : String)
    (password : Option String) (kwargs : List (String × Json))
    (page size : Int) (o od : HttpOutcome)
    (h : op_failure o = true) (hd : delete_op_failure od = true) :
    c.create_paste title content kwargs (fun _ => o) = none ∧
    c.get_paste paste_id password (fun _ => o) = none ∧
    c.update_paste paste_id kwargs (fun _ => o) = none ∧
    c.get_public_pastes page size (fun _ => o) = none ∧
    c.search_pastes query page size (fun _ => o) = none ∧
    c.get_pastes_by_language language page size (fun _ => o) = none ∧
    c.get_statistics (fun _ => o) = none ∧
    c.delete_paste paste_id (fun _ => od) = false := by
  refine ⟨?_, ?_, ?_, ?_, ?_, ?_, ?_, ?_⟩
  · exact json_call_result_of_failure o h
  · exact json_call_result_of_failure o h
  · exact json_call_result_of_failure o h
  · exact json_call_result_of_failure o h
  · exact json_call_result_of_failure o h
  · exact json_call_result_of_failure o h
  · exact json_call_result_of_failure o h
  · exact delete_call_result_of_failure od hd

/-- C1 witness: the amended theorem applied at a concrete transport
failure and a concrete 500 response. -/
theorem c1_witness :
    defaultClient.create_paste "t" "c" [] (fun _ => .transportError "refused") = none ∧
    defaultClient.delete_paste "x" (fun _ => .response ⟨500, "boom", none⟩) = false :=
  ⟨(c1_amended_failure_yields_no_result defaultClient "t" "c" "x" "l" "q" none [] 0 10
      (.transportError "refused") (.response ⟨500, "boom", none⟩) rfl rfl).1,
   (c1_amended_failure_yields_no_result defaultClient "t" "c" "x" "l" "q" none [] 0 10
      (.transportError "refused") (.response ⟨500, "boom", none⟩) rfl rfl).2.2.2.2.2.2.2⟩

/-! ### Claim C2 -/

/-- C2 counterexample. `health_check` returns `true` on a 302 (non-2xx)
response whose body decodes to a dict with `status = "UP"`, and it
raises an uncaught `AttributeError` when a non-error response decodes to
valid JSON that is not a dict — contradicting both "exactly when the
response has a 2xx status" and "never raises". -/
theorem c2_counterexample :
    defaultClient.health_check
      (fun _ => .response ⟨302, "up", some (Json.obj [("status", Json.str "UP")])⟩) =
        .ok true ∧
    defaultClient.health_check
      (fun _ => .response ⟨200, "[1]", some (Json.arr [Json.num 1])⟩) =
        .raised "AttributeError" :=
  ⟨rfl, rfl⟩

/-- C2 (amended): `health_check` returns `true` exactly when the
exchange produced a response whose status `raise_for_status` does not
flag (outside 400–599) and whose body decodes to a JSON object whose
`status` field is the string `"UP"`. It returns `false` on every
transport failure, 4xx/5xx status, or JSON-decode failure. It raises
`AttributeError` exactly when an unflagged response decodes to a
non-object JSON value. -/
theorem c2_amended_health_check (c : SecurePasteClient) (o : HttpOutcome) :
    (c.health_check (fun _ => o) = .ok true ↔
      ∃ r fs, o = .response r ∧ raise_for_status_raises r.status = false ∧
        r.json = some (Json.obj fs) ∧ dict_get fs "status" = some (Json.str "UP")) ∧
    (op_failure o = true → c.health_check (fun _ => o) = .ok false) ∧
    (c.health_check (fun _ => o) = .raised "AttributeError" ↔
      ∃ r j, o = .response r ∧ raise_for_status_raises r.status = false ∧
        r.json = some j ∧ j.isObj = false) := by
  cases o with
  | transportError m =>
    refine ⟨?_, fun _ => rfl, ?_⟩ <;> simp [SecurePasteClient.health_check]
  | response r =>
    by_cases hr : raise_for_status_raises r.status = true
    · refine ⟨?_, fun _ => ?_, ?_⟩ <;>
        simp [SecurePasteClient.health_check, hr]
    · have hr0 : raise_for_status_raises r.status = false := by
        cases hx : raise_for_status_raises r.status
        · rfl
        · exact absurd hx hr
      cases hj : r.json with
      | none =>
        refine ⟨?_, fun _ => ?_, ?_⟩ <;>
          simp [SecurePasteClient.health_check, hr0, hj]
      | some j =>
        have hop : op_failure (.response r) = false := by
          simp [op_failure, hr0, hj]
        cases j with
        | obj fs =>
          refine ⟨?_, fun hcontra => ?_, ?_⟩
          · simp [SecurePasteClient.health_check, hr0, hj, status_is_up_iff]
          · rw [hop] at hcontra; cases hcontra
          · simp [SecurePasteClient.health_check, hr0, hj, Json.isObj]
        | null =>
          refine ⟨?_, fun hcontra => ?_, ?_⟩
          · simp [SecurePasteClient.health_check, hr0, hj]
          · rw [hop] at hcontra; cases hcontra
          · simp [SecurePasteClient.health_check, hr0, hj, Json.isObj]
        | bool b =>
          refine ⟨?_, fun hcontra => ?_, ?_⟩
          · simp [SecurePasteClient.health_check, hr0, hj]
          · rw [hop] at hcontra; cases hcontra
          · simp [SecurePasteClient.health_check, hr0, hj, Json.isObj]
        | num n =>
          refine ⟨?_, fun hcontra => ?_, ?_⟩
          · simp [SecurePasteClient.health_check, hr0, hj]
          · rw [hop] at hcontra; cases hcontra
          · simp [SecurePasteClient.health_check, hr0, hj, Json.isObj]
        | str s =>
          refine ⟨?_, fun hcontra => ?_, ?_⟩
          · simp [SecurePasteClient.health_check, hr0, hj]
          · rw [hop] at hcontra; cases hcontra
          · simp [SecurePasteClient.health_check, hr0, hj, Json.isObj]
        | arr xs =>
          refine ⟨?_, fun hcontra => ?_, ?_⟩
          · simp [SecurePasteClient.health_check, hr0, hj]
          · rw [hop] at hcontra; cases hcontra
          · simp [SecurePasteClient.health_check, hr0, hj, Json.isObj]

/-- C2 witness: the amended theorem applied at a concrete 503 outcome. -/
theorem c2_witness :
    defaultClient.health_check (fun _ => .response ⟨503, "down", none⟩) = .ok false :=
  (c2_amended_health_check defaultClient (.response ⟨503, "down", none⟩)).2.1 rfl

/-! ### Claim C3 -/

/-- C3 (code bug): the printed failure report never contains the
`Response: ...` line. The guard `if hasattr(e, 'response') and e.response`
tests the truthiness of the `Response` object, which is `status < 400` —
but an `HTTPError` from `raise_for_status` always carries a response
with status 400–599, and transport and JSON-decode exceptions carry no
response at all, so the branch that would print the raw body is
unreachable. At the concrete failing input — `create_paste` receiving a
404 whose body is `Paste not found` — the operation fails yet the
report consists of the first line only. -/
theorem c3_body_never_reported :
    (∀ (context : String) (o : HttpOutcome),
      (op_error_report context o).bodyLine = none) ∧
    json_call_result (.response ⟨404, "Paste not found", none⟩) = none ∧
    (op_error_report "Error creating paste: "
      (.response ⟨404, "Paste not found", none⟩)).bodyLine = none := by
  refine ⟨?_, rfl, rfl⟩
  intro context o
  cases o with
  | transportError m => rfl
  | response r =>
    by_cases hr : raise_for_status_raises r.status = true
    · have h4 : 400 ≤ r.status ∧ r.status < 600 := of_decide_eq_true hr
      have hok : response_ok r = false := by
        simp [response_ok]
        omega
      simp [op_error_report, exc_response, hr, hok]
    · have hr0 : raise_for_status_raises r.status = false := by
        cases hx : raise_for_status_raises r.status
        · rfl
        · exact absurd hx hr
      simp [op_error_report, exc_response, hr0]

/-! ### Claim C4 -/

/-- The network environment for the C4 counterexample: a healthy
service whose create endpoint answers 200 with a valid JSON object that
lacks the `id` field the driver reads. -/
def c4_oracle : Nat → HttpOutcome :=
  fun n =>
    if n = 0 then .response ⟨200, "up", some (Json.obj [("status", Json.str "UP")])⟩
    else if n = 1 then .response ⟨200, "created", some (Json.obj [("title", Json.str "x")])⟩
    else .transportError "connection refused"

/-- C4 counterexample. With a passing health check, a later step still
terminates the process: `print_paste_info` raises an uncaught `KeyError`
when the created paste record lacks `id`. -/
theorem c4_counterexample :
    defaultClient.health_check (fun _ => c4_oracle 0) = .ok true ∧
    main_driver c4_oracle = .raised "KeyError" :=
  ⟨rfl, rfl⟩

/-- C4 (amended): the driver performs its deliberate nonzero exit
(`sys.exit(1)`) exactly when the initial health check returns false, and
no later step reaches that exit; however, later steps can still
terminate the process abnormally through an uncaught exception when a
response's decoded body lacks the structure the driver reads. -/
theorem c4_amended_exit_iff_health_failure (oracle : Nat → HttpOutcome) :
    main_driver oracle = .exitFailure ↔
      defaultClient.health_check (fun _ => oracle 0) = .ok false := by
  unfold main_driver
  cases h : defaultClient.health_check (fun _ => oracle 0) with
  | raised m => simp
  | ok b =>
    cases b with
    | false => simp
    | true =>
      cases h2 : mainAfterHealth oracle <;> simp [h2]

/-! ### Claim C5 -/

/-- C5 counterexample. A password is supplied — `some ""` — yet the
request carries no `password` query parameter: `if password:` omits
every falsy password, so "attaching `password` exactly when a password
is supplied" fails at the empty string. -/
theorem c5_counterexample :
    (defaultClient.get_paste_request "abc" (some "")).params = [] ∧
    (some "" : Option String) ≠ none :=
  ⟨rfl, by simp⟩

/-- C5 (amended): `get_paste` issues GET `{api_base}/{id}`, attaching
`password` as a query parameter exactly when the supplied password is
non-empty; on a 2xx response with a decodable body it returns the
decoded record, and on every transport failure, 4xx/5xx status, or
decode failure it returns the no-result value. -/
theorem c5_amended_get_paste (c : SecurePasteClient) (paste_id : String)
    (password : Option String) :
    (c.get_paste_request paste_id password).method = "GET" ∧
    (c.get_paste_request paste_id password).url =
      rstrip_slashes c.base_url ++ "/api/pastes" ++ "/" ++ paste_id ∧
    (∀ p : String, password = some p → p ≠ "" →
      (c.get_paste_request paste_id password).params = [("password", p)]) ∧
    (password = none ∨ password = some "" →
      (c.get_paste_request paste_id password).params = []) ∧
    (∀ (s : Nat) (b : String) (j : Json), 200 ≤ s → s < 300 →
      c.get_paste paste_id password (fun _ => .response ⟨s, b, some j⟩) = some j) ∧
    (∀ o : HttpOutcome, op_failure o = true →
      c.get_paste paste_id password (fun _ => o) = none) := by
  refine ⟨rfl, rfl, ?_, ?_, ?_, ?_⟩
  · intro p hp hne
    subst hp
    simp [SecurePasteClient.get_paste_request, hne]
  · intro hp
    rcases hp with hp | hp <;> subst hp <;> rfl
  · intro s b j h1 h2
    exact json_call_result_2xx s b j h1 h2
  · intro o ho
    exact json_call_result_of_failure o ho

/-- C5 witness: the amended theorem applied with password `"pw"` and a
200 response. -/
theorem c5_witness :
    (defaultClient.get_paste_request "abc" (some "pw")).params = [("password", "pw")] ∧
    defaultClient.get_paste "abc" (some "pw")
      (fun _ => .response ⟨200, "ok", some (Json.obj [])⟩) = some (Json.obj []) :=
  ⟨(c5_amended_get_paste defaultClient "abc" (some "pw")).2.2.1 "pw" rfl (by simp),
   (c5_amended_get_paste defaultClient "abc" (some "pw")).2.2.2.2.1 200 "ok"
      (Json.obj []) (by omega) (by omega)⟩

/-! ### Claim C6 -/

/-- C6 (confirmed): `create_paste` issues POST `{api_base}` whose JSON
body is the dict merge of the required `title` and `content` fields with
the supplied options (options applied last), and on a 2xx response with
a decodable body it returns the decoded created record. -/
theorem c6_create_paste (c : SecurePasteClient) (title content : String)
    (kwargs : List (String × Json)) :
    (c.create_paste_request title content kwargs).method = "POST" ∧
    (c.create_paste_request title content kwargs).url =
      rstrip_slashes c.base_url ++ "/api/pastes" ∧
    (c.create_paste_request title content kwargs).jsonBody =
      some (Json.obj (dict_merge
        [("title", Json.str title), ("content", Json.str content)] kwargs)) ∧
    (∀ (s : Nat) (b : String) (j : Json), 200 ≤ s → s < 300 →
      c.create_paste title content kwargs (fun _ => .response ⟨s, b, some j⟩) = some j) := by
  refine ⟨rfl, rfl, rfl, ?_⟩
  intro s b j h1 h2
  exact json_call_result_2xx s b j h1 h2

/-- C6 witness: the theorem applied at a concrete creation and a 201
response. -/
theorem c6_witness :
    defaultClient.create_paste "T" "C" [("language", Json.str "python")]
      (fun _ => .response ⟨201, "ok", some (Json.obj [("id", Json.num 1)])⟩) =
      some (Json.obj [("id", Json.num 1)]) :=
  (c6_create_paste defaultClient "T" "C" [("language", Json.str "python")]).2.2.2
    201 "ok" (Json.obj [("id", Json.num 1)]) (by omega) (by omega)

/-! ### Claim C7 -/

/-- C7 (confirmed): `update_paste` issues PUT `{api_base}/{id}` whose
JSON body is exactly the supplied fields and nothing else, and on a 2xx
response with a decodable body it returns the decoded updated record. -/
theorem c7_update_paste (c : SecurePasteClient) (paste_id : String)
    (kwargs : List (String × Json)) :
    (c.update_paste_request paste_id kwargs).method = "PUT" ∧
    (c.update_paste_request paste_id kwargs).url =
      rstrip_slashes c.base_url ++ "/api/pastes" ++ "/" ++ paste_id ∧
    (c.update_paste_request paste_id kwargs).jsonBody = some (Json.obj kwargs) ∧
    (∀ (s : Nat) (b : String) (j : Json), 200 ≤ s → s < 300 →
      c.update_paste paste_id kwargs (fun _ => .response ⟨s, b, some j⟩) = some j) := by
  refine ⟨rfl, rfl, rfl, ?_⟩
  intro s b j h1 h2
  exact json_call_result_2xx s b j h1 h2

/-- C7 witness: the theorem applied at a concrete update and a 200
response. -/
theorem c7_witness :
    defaultClient.update_paste "42" [("title", Json.str "new")]
      (fun _ => .response ⟨200, "ok", some (Json.obj [("title", Json.str "new")])⟩) =
      some (Json.obj [("title", Json.str "new")]) :=
  (c7_update_paste defaultClient "42" [("title", Json.str "new")]).2.2.2
    200 "ok" (Json.obj [("title", Json.str "new")]) (by omega) (by omega)

/-! ### Claim C8 -/

/-- C8 counterexample. A 302 response is not 2xx, yet `delete_paste`
returns `true`: `raise_for_status` flags only 400–599. -/
theorem c8_counterexample :
    defaultClient.delete_paste "x" (fun _ => .response ⟨302, "", none⟩) = true :=
  rfl

/-- C8 (amended): `delete_paste` issues DELETE `{api_base}/{id}` with no
body, returns `true` exactly when a response arrived whose status
`raise_for_status` does not flag (outside 400–599, `false` on transport
failure or 4xx/5xx), and its result never depends on the response
body. -/
theorem c8_amended_delete_paste (c : SecurePasteClient) (paste_id : String) :
    (c.delete_paste_request paste_id).method = "DELETE" ∧
    (c.delete_paste_request paste_id).url =
      rstrip_slashes c.base_url ++ "/api/pastes" ++ "/" ++ paste_id ∧
    (c.delete_paste_request paste_id).jsonBody = none ∧
    (∀ o : HttpOutcome, c.delete_paste paste_id (fun _ => o) = true ↔
      ∃ r, o = .response r ∧ raise_for_status_raises r.status = false) ∧
    (∀ (s : Nat) (t1 t2 : String) (j1 j2 : Option Json),
      c.delete_paste paste_id (fun _ => .response ⟨s, t1, j1⟩) =
        c.delete_paste paste_id (fun _ => .response ⟨s, t2, j2⟩)) := by
  refine ⟨rfl, rfl, rfl, ?_, ?_⟩
  · intro o
    cases o with
    | transportError m =>
      simp [SecurePasteClient.delete_paste, delete_call_result]
    | response r =>
      simp [SecurePasteClient.delete_paste, delete_call_result]
  · intro s t1 t2 j1 j2
    rfl

/-! ### Claim C9 -/

/-- C9 (confirmed): the dict literal `\x7b'title': title, 'content': content,
**kwargs\x7d` applies the options last, so an option named `title` or
`content` overrides the corresponding positional argument in the request
body. -/
theorem c9_options_override (title content : String)
    (kwargs : List (String × Json)) (v w : Json)
    (hnd : (kwargs.map Prod.fst).Nodup) :
    (("title", v) ∈ kwargs →
      dict_get (create_paste_data title content kwargs) "title" = some v) ∧
    (("content", w) ∈ kwargs →
      dict_get (create_paste_data title content kwargs) "content" = some w) := by
  constructor
  · intro hm
    rw [create_paste_data, dict_merge_get,
      dict_get_reverse_of_mem kwargs "title" v hnd hm]
    rfl
  · intro hm
    rw [create_paste_data, dict_merge_get,
      dict_get_reverse_of_mem kwargs "content" w hnd hm]
    rfl

/-- C9 witness: with option `title = "X"`, the request body's `title`
is `"X"`, not the positional argument `"T"`. -/
theorem c9_witness :
    dict_get (create_paste_data "T" "C" [("title", Json.str "X")]) "title" =
      some (Json.str "X") :=
  (c9_options_override "T" "C" [("title", Json.str "X")] (Json.str "X") Json.null
    (by simp)).1 (by simp)

/-! ### Claim C10 -/

/-- C10 (confirmed): `get_paste` with an empty-string password builds
the same request as with no password, and the `password` query
parameter is present exactly when the supplied password is non-empty —
an empty password is never transmitted. -/
theorem c10_empty_password_omitted :
    (∀ (c : SecurePasteClient) (paste_id : String),
      c.get_paste_request paste_id (some "") = c.get_paste_request paste_id none) ∧
    (∀ (c : SecurePasteClient) (paste_id : String) (password : Option String),
      "password" ∈ (c.get_paste_request paste_id password).params.map Prod.fst ↔
        ∃ p, password = some p ∧ p ≠ "") := by
  constructor
  · intro c paste_id
    rfl
  · intro c paste_id password
    cases password with
    | none => simp [SecurePasteClient.get_paste_request]
    | some p =>
      by_cases hp : p = ""
      · subst hp
        simp [SecurePasteClient.get_paste_request]
      · simp [SecurePasteClient.get_paste_request, hp]
